import Mathlib

/-!
Shallow embedding of the pulse-api session layer (src/pulseapi/session.py)
and payload builders (src/pulseapi/utils.py).

The remote controller is modelled as an environment value `Ctrl` giving the
response of the open and delete endpoints; every operation returns its
outcome (normal return or raised error), the session state after the
operation, and the list of network requests it issued, in order.
-/

/-- Session mode, embedding the class-level constants READ_WRITE and
READ_ONLY of src/pulseapi/session.py (lines 7-8). -/
inductive Mode where
  | READ_WRITE
  | READ_ONLY
  deriving DecidableEq, Repr

/-- Errors observable by a caller of this layer.  auth and transport model
errors raised by the pdhttp transport; shape and range are the spec error
taxonomy for the builders; user models an arbitrary error raised by a
scope body. -/
inductive PError where
  | auth (msg : String)
  | transport (msg : String)
  | shape (msg : String)
  | range (msg : String)
  | user (code : Nat)
  deriving DecidableEq, Repr

/-- A network request issued to the controller: an open-session request
carrying the host and mode, or a delete-session request carrying the host
and the token it is scoped to. -/
inductive Request where
  | openReq (host : String) (mode : Mode)
  | deleteReq (host : String) (token : String)
  deriving DecidableEq, Repr

/-- The controller environment: what the remote endpoints answer.  openResp
gives the token from the Authentication-Info header on success, or the
raised error; deleteResp gives the outcome of delete_session for a token. -/
structure Ctrl where
  openResp : Mode → Except PError String
  deleteResp : String → Except PError Unit

/-- The mutable state of a Session object: the configured host
(api_client.configuration.host) and the private _token field. -/
structure Session where
  host : String
  token : Option String
  deriving DecidableEq, Repr

/-- Outcome of running one operation: the result (ok or raised error), the
session state when control leaves the operation, and the requests issued. -/
structure StepResult where
  outcome : Except PError Unit
  state : Session
  trace : List Request
  deriving Repr

/-- Embeds Session.__init__ (src/pulseapi/session.py lines 10-14): the host
is configured from the location argument and _token starts as None. -/
def Session.construct (location : String) : Session :=
  { host := location, token := none }

/-- Embeds open_session (src/pulseapi/session.py lines 16-20): issues one
open request; on success stores the returned token, on a raised error the
state is unchanged.  The current token is never consulted. -/
def open_session (c : Ctrl) (mode : Mode) (s : Session) : StepResult :=
  match c.openResp mode with
  | .ok tok => { outcome := .ok (), state := { s with token := some tok },
                 trace := [.openReq s.host mode] }
  | .error e => { outcome := .error e, state := s,
                  trace := [.openReq s.host mode] }

/-- Embeds close_session (src/pulseapi/session.py lines 22-25): a no-op if
_token is None; otherwise delete_session(_token) is called and only after
it returns is _token set to None, so a raised error from the delete call
leaves the token in place. -/
def close_session (c : Ctrl) (s : Session) : StepResult :=
  match s.token with
  | none => { outcome := .ok (), state := s, trace := [] }
  | some tok =>
    match c.deleteResp tok with
    | .ok _ => { outcome := .ok (), state := { s with token := none },
                 trace := [.deleteReq s.host tok] }
    | .error e => { outcome := .error e, state := s,
                    trace := [.deleteReq s.host tok] }

/-- Embeds the exclusive read-write scope: a Python with-statement over the
Session, per __enter__ and __exit__ (src/pulseapi/session.py lines 27-34).
Enter opens READ_WRITE; if that raises, the body and __exit__ do not run.
Exit first runs close_session: if it raises, that error propagates and
replaces the body error; otherwise a body error is re-raised by the
explicit raise exc_value line. -/
def with_rw (c : Ctrl) (body : Session → StepResult) (s : Session) : StepResult :=
  let o := open_session c Mode.READ_WRITE s
  match o.outcome with
  | .error e => { outcome := .error e, state := o.state, trace := o.trace }
  | .ok _ =>
    let b := body o.state
    let cl := close_session c b.state
    match cl.outcome with
    | .error d => { outcome := .error d, state := cl.state,
                    trace := o.trace ++ b.trace ++ cl.trace }
    | .ok _ => { outcome := b.outcome, state := cl.state,
                 trace := o.trace ++ b.trace ++ cl.trace }

/-- Embeds ro_context (src/pulseapi/session.py lines 48-56): opens
READ_ONLY inside a try whose finally always runs close_session; the bare
except re-raises the in-flight error unchanged.  If the open itself raises,
the finally still closes (a no-op when no token was held); an error raised
by the final close replaces any in-flight error. -/
def ro_context (c : Ctrl) (body : Session → StepResult) (s : Session) : StepResult :=
  let o := open_session c Mode.READ_ONLY s
  match o.outcome with
  | .error e =>
    let cl := close_session c o.state
    match cl.outcome with
    | .error d => { outcome := .error d, state := cl.state, trace := o.trace ++ cl.trace }
    | .ok _ => { outcome := .error e, state := cl.state, trace := o.trace ++ cl.trace }
  | .ok _ =>
    let b := body o.state
    let cl := close_session c b.state
    match cl.outcome with
    | .error d => { outcome := .error d, state := cl.state,
                    trace := o.trace ++ b.trace ++ cl.trace }
    | .ok _ => { outcome := b.outcome, state := cl.state,
                 trace := o.trace ++ b.trace ++ cl.trace }

/-- Embeds the location setter (src/pulseapi/session.py lines 44-46): it
assigns api_client.configuration.host unconditionally, with no check of
whether a token is currently held and no way to raise. -/
def set_location (s : Session) (newLoc : String) : Session :=
  { s with host := newLoc }

/-- A controller whose open endpoint accepts (token "tok") and whose delete
endpoint raises a transport error, used as the failing environment for the
close-path claims. -/
def failCtrl : Ctrl :=
  { openResp := fun _ => .ok "tok",
    deleteResp := fun _ => .error (.transport "close failed") }

/-- A controller whose open endpoint accepts with token "fresh" and whose
delete endpoint succeeds. -/
def okCtrl : Ctrl :=
  { openResp := fun _ => .ok "fresh",
    deleteResp := fun _ => .ok () }

/-- C1: the claim says close_session sets the token to None unconditionally,
even when the remote close call fails.  Evaluating the embedded
close_session on a session holding token "t" against a controller whose
delete call raises shows the code issues the one delete request scoped to
"t" but then propagates the error with the token still held: the
unconditional clearing the claim requires is absent from the source. -/
theorem C1_close_session_keeps_token_on_remote_failure :
    close_session failCtrl { host := "h", token := some "t" } =
      { outcome := .error (.transport "close failed"),
        state := { host := "h", token := some "t" },
        trace := [.deleteReq "h" "t"] } := rfl

/-- C2: the claim says that after a successful READ_WRITE scope entry, any
error raised by the scope body leaves the token None at scope exit and is
itself re-raised.  Evaluating the embedded with-statement where the body
raises error user 7 and the remote delete fails shows the scope instead
raises the transport error from the close call and exits with the token
still set to "tok". -/
theorem C2_rw_scope_close_failure_masks_body_error :
    with_rw failCtrl (fun s => { outcome := .error (.user 7), state := s, trace := [] })
        { host := "h", token := none } =
      { outcome := .error (.transport "close failed"),
        state := { host := "h", token := some "tok" },
        trace := [.openReq "h" Mode.READ_WRITE, .deleteReq "h" "tok"] } := rfl

/-- C3: the claim includes that close_session always leaves the token None.
Evaluating the embedded close_session on a session holding "sess-token"
against a controller whose delete call raises shows the token is retained,
so the open-iff-token invariant transition OPEN to CLOSED on close does not
hold on the source when the remote close fails.  The other conjuncts hold:
Session.construct gives token none, open on accept stores some token, and
open on reject from a token-free state leaves it none. -/
theorem C3_close_session_can_retain_token :
    (close_session failCtrl { host := "ep", token := some "sess-token" }).state.token =
      some "sess-token" := rfl

/-- C5: the claim says that when the scope body has raised and the close
call then fails, the original body error takes precedence and the close
failure is only logged.  Evaluating the embedded ro_context where the body
raises error user 3 and the delete call raises a transport error shows the
close failure is raised to the caller, masking the body error; the source
has no precedence or logging logic at all. -/
theorem C5_ro_scope_close_failure_masks_body_error :
    ro_context failCtrl (fun s => { outcome := .error (.user 3), state := s, trace := [] })
        { host := "h2", token := none } =
      { outcome := .error (.transport "close failed"),
        state := { host := "h2", token := some "tok" },
        trace := [.openReq "h2" Mode.READ_ONLY, .deleteReq "h2" "tok"] } := rfl

/-- C8: close_session is an idempotent no-op when no token is held: for any
controller and any session whose token is None it raises nothing, issues no
network request and leaves the state unchanged, so in particular a second
close_session directly after a first one is a silent no-op. -/
theorem C8_close_session_idempotent (c : Ctrl) (s : Session) (h : s.token = none) :
    close_session c s = { outcome := .ok (), state := s, trace := [] } := by
  simp only [close_session, h]

/-- Witness for C8 at the concrete token-free session with host "h". -/
theorem C8_close_session_idempotent_witness :
    close_session failCtrl { host := "h", token := none } =
      { outcome := .ok (), state := { host := "h", token := none }, trace := [] } :=
  C8_close_session_idempotent failCtrl { host := "h", token := none } rfl

/-- C9: the claim says setting the location while a token is held must be
rejected with a contract-violation error.  The embedded setter has no error
channel at all: on a session holding token "t9" it silently rebinds the
host and keeps the token, so the guard the claim requires is absent from
the source. -/
theorem C9_set_location_unguarded_while_open :
    set_location { host := "old", token := some "t9" } "new" =
      { host := "new", token := some "t9" } := rfl

/-- C10: on a session already holding a token, open_session raises no
contract error: it always issues exactly one fresh open request and never a
delete request for the held token, and when the controller accepts with a
new token it overwrites the stored token with that new one. -/
theorem C10_reopen_overwrites_token_no_close (c : Ctrl) (m : Mode) (s : Session)
    (t : String) (h : s.token = some t) :
    (open_session c m s).trace = [.openReq s.host m] ∧
    (∀ hh tt, Request.deleteReq hh tt ∉ (open_session c m s).trace) ∧
    (∀ tok, c.openResp m = .ok tok →
      open_session c m s =
        { outcome := .ok (), state := { s with token := some tok },
          trace := [.openReq s.host m] }) := by
  refine ⟨?_, ?_, ?_⟩
  · unfold open_session
    cases c.openResp m <;> rfl
  · intro hh tt
    unfold open_session
    cases c.openResp m <;> simp
  · intro tok htok
    unfold open_session
    rw [htok]

/-- Witness for C10: a session on host "h" holding token "old", against a
controller that accepts with token "fresh". -/
theorem C10_reopen_overwrites_token_no_close_witness :
    open_session okCtrl Mode.READ_WRITE { host := "h", token := some "old" } =
      { outcome := .ok (), state := { host := "h", token := some "fresh" },
        trace := [.openReq "h" Mode.READ_WRITE] } :=
  (C10_reopen_overwrites_token_no_close okCtrl Mode.READ_WRITE
      { host := "h", token := some "old" } "old" rfl).2.2 "fresh" rfl

/-- A Cartesian point DTO with the three coordinate fields of
pdhttp.Point. -/
structure Point where
  x : Rat
  y : Rat
  z : Rat
  deriving DecidableEq, Repr

/-- A rotation DTO with the three coordinate fields of pdhttp.Rotation. -/
structure Rotation where
  roll : Rat
  pitch : Rat
  yaw : Rat
  deriving DecidableEq, Repr

/-- A position DTO mirroring pdhttp.Position: point, rotation and the
optional ordered actions list (actions kept opaque as tags). -/
structure Position where
  point : Point
  rotation : Rotation
  actions : Option (List Nat)
  deriving DecidableEq, Repr

/-- A pose DTO mirroring pdhttp.Pose: the ordered angles sequence. -/
structure Pose where
  angles : List Rat
  deriving DecidableEq, Repr

/-- The six-component acceleration record of
pdhttp.JoggingAccelerationAcceleration. -/
structure JoggingAccelerationAcceleration where
  x : Rat
  y : Rat
  z : Rat
  rx : Rat
  ry : Rat
  rz : Rat
  deriving DecidableEq, Repr

/-- The jogging DTO mirroring pdhttp.JoggingAcceleration, wrapping the
acceleration record. -/
structure JoggingAcceleration where
  acceleration : JoggingAccelerationAcceleration
  deriving DecidableEq, Repr

/-- Modelled from the spec: the pdhttp.Point constructor is not under src/;
per section 4.2 a point has exactly 3 numeric components and a malformed
length fails with ShapeError before any network call.  The source call
site is Point(*point) in src/pulseapi/utils.py line 39. -/
def mkPoint : List Rat → Except PError Point
  | [a, b, c] => .ok { x := a, y := b, z := c }
  | _ => .error (.shape "point needs exactly 3 components")

/-- Modelled from the spec: the pdhttp.Rotation constructor is not under
src/; per section 4.2 a rotation has exactly 3 numeric components and a
malformed length fails with ShapeError before any network call.  The
source call site is Rotation(*rotation) in src/pulseapi/utils.py line 39. -/
def mkRotation : List Rat → Except PError Rotation
  | [a, b, c] => .ok { roll := a, pitch := b, yaw := c }
  | _ => .error (.shape "rotation needs exactly 3 components")

/-- Embeds position (src/pulseapi/utils.py lines 22-39): builds
Position(Point(*point), Rotation(*rotation), actions), the point argument
being consumed first, with no network interaction. -/
def position (point rot : List Rat) (acts : Option (List Nat)) :
    Except PError Position :=
  match mkPoint point with
  | .error e => .error e
  | .ok p =>
    match mkRotation rot with
    | .error e => .error e
    | .ok r => .ok { point := p, rotation := r, actions := acts }

/-- Modelled from the spec: the pdhttp.Pose constructor is not under src/;
per section 4.2 the angles argument is an ordered sequence of exactly 6
joint angles and a wrong length fails with ShapeError.  The source call
site is Pose(angles) in src/pulseapi/utils.py line 52. -/
def mkPose (angles : List Rat) : Except PError Pose :=
  if angles.length = 6 then .ok { angles := angles }
  else .error (.shape "pose needs exactly 6 angles")

/-- Embeds pose (src/pulseapi/utils.py lines 42-52): returns Pose(angles);
the actions argument is accepted and ignored by the source body. -/
def pose (angles : List Rat) (_acts : Option (List Nat)) : Except PError Pose :=
  mkPose angles

/-- Whether one jog component lies in the closed interval from -1 to 1. -/
def inUnitRange (v : Rat) : Bool :=
  decide (-1 ≤ v ∧ v ≤ 1)

/-- Modelled from the spec: the pdhttp.JoggingAccelerationAcceleration
constructor is not under src/; per section 4.2 and the jog docstring in
src/pulseapi/utils.py (values MUST belong to the range from -1 to 1
inclusively) every component outside that interval fails with RangeError
before any network call. -/
def mkJoggingAccelerationAcceleration (x y z rx ry rz : Rat) :
    Except PError JoggingAccelerationAcceleration :=
  if inUnitRange x && inUnitRange y && inUnitRange z &&
     inUnitRange rx && inUnitRange ry && inUnitRange rz then
    .ok { x := x, y := y, z := z, rx := rx, ry := ry, rz := rz }
  else
    .error (.range "jog component out of range")

/-- Embeds jog (src/pulseapi/utils.py lines 55-73): builds
JoggingAcceleration(JoggingAccelerationAcceleration(x, y, z, rx, ry, rz));
every component defaults to 0 in the source signature, with no network
interaction. -/
def jog (x y z rx ry rz : Rat) : Except PError JoggingAcceleration :=
  match mkJoggingAccelerationAcceleration x y z rx ry rz with
  | .ok a => .ok { acceleration := a }
  | .error e => .error e

/-- C4: any of the six jog components outside the closed interval from -1
to 1 makes jog fail with RangeError (the builder is pure, so this is before
any network interaction); the boundary values 1 and -1 succeed; and the
all-defaults call jog 0 0 0 0 0 0 yields the zero vector. -/
theorem C4_jog_bounds :
    (∀ x y z rx ry rz : Rat,
        ¬ ((-1 ≤ x ∧ x ≤ 1) ∧ (-1 ≤ y ∧ y ≤ 1) ∧ (-1 ≤ z ∧ z ≤ 1) ∧
           (-1 ≤ rx ∧ rx ≤ 1) ∧ (-1 ≤ ry ∧ ry ≤ 1) ∧ (-1 ≤ rz ∧ rz ≤ 1)) →
        jog x y z rx ry rz = .error (.range "jog component out of range")) ∧
    jog 1 0 0 0 0 0 =
      .ok { acceleration := { x := 1, y := 0, z := 0, rx := 0, ry := 0, rz := 0 } } ∧
    jog (-1) 0 0 0 0 0 =
      .ok { acceleration := { x := -1, y := 0, z := 0, rx := 0, ry := 0, rz := 0 } } ∧
    jog 0 0 0 0 0 0 =
      .ok { acceleration := { x := 0, y := 0, z := 0, rx := 0, ry := 0, rz := 0 } } := by
  refine ⟨?_, ?_, ?_, ?_⟩
  case refine_2 => norm_num [jog, mkJoggingAccelerationAcceleration, inUnitRange]
  case refine_3 => norm_num [jog, mkJoggingAccelerationAcceleration, inUnitRange]
  case refine_4 => norm_num [jog, mkJoggingAccelerationAcceleration, inUnitRange]
  intro x y z rx ry rz h
  have hb : (inUnitRange x && inUnitRange y && inUnitRange z &&
      inUnitRange rx && inUnitRange ry && inUnitRange rz) = false := by
    by_contra hc
    apply h
    rw [Bool.not_eq_false] at hc
    simp only [inUnitRange, Bool.and_eq_true, decide_eq_true_iff] at hc
    tauto
  simp [jog, mkJoggingAccelerationAcceleration, hb]

/-- Witness for C4 at the out-of-range component 3/2, matching the spec
example jog with x equal to 1.5. -/
theorem C4_jog_bounds_witness :
    jog (3 / 2) 0 0 0 0 0 = .error (.range "jog component out of range") :=
  C4_jog_bounds.1 (3 / 2) 0 0 0 0 0 (by norm_num)

/-- C6: pose raises ShapeError exactly when the angles sequence does not
have length 6; on length exactly 6 it raises nothing and returns a Pose
whose angles field is the input sequence itself, so every index 0..5 is
preserved in order. -/
theorem C6_pose_shape (angles : List Rat) (acts : Option (List Nat)) :
    (angles.length ≠ 6 →
      pose angles acts = .error (.shape "pose needs exactly 6 angles")) ∧
    (angles.length = 6 → pose angles acts = .ok { angles := angles }) := by
  constructor <;> intro h <;> simp [pose, mkPose, h]

/-- Witness for C6: the spec round-trip list of six angles succeeds and
keeps order; a three-element list fails with ShapeError. -/
theorem C6_pose_shape_witness :
    pose [10, 20, 30, 40, 50, 60] none =
      .ok { angles := [10, 20, 30, 40, 50, 60] } ∧
    pose [10, 20, 30] none = .error (.shape "pose needs exactly 6 angles") :=
  ⟨(C6_pose_shape [10, 20, 30, 40, 50, 60] none).2 (by decide),
   (C6_pose_shape [10, 20, 30] none).1 (by decide)⟩

/-- Helper: a point list whose length is not 3 makes mkPoint fail with the
shape error. -/
theorem mkPoint_length_ne (l : List Rat) (h : l.length ≠ 3) :
    mkPoint l = .error (.shape "point needs exactly 3 components") := by
  match l with
  | [] => rfl
  | [_] => rfl
  | [_, _] => rfl
  | [_, _, _] => exact absurd rfl h
  | _ :: _ :: _ :: _ :: _ => rfl

/-- Helper: a rotation list whose length is not 3 makes mkRotation fail
with the shape error. -/
theorem mkRotation_length_ne (l : List Rat) (h : l.length ≠ 3) :
    mkRotation l = .error (.shape "rotation needs exactly 3 components") := by
  match l with
  | [] => rfl
  | [_] => rfl
  | [_, _] => rfl
  | [_, _, _] => exact absurd rfl h
  | _ :: _ :: _ :: _ :: _ => rfl

/-- Helper: mkPoint either fails with its shape error or succeeds. -/
theorem mkPoint_shape_or_ok (l : List Rat) :
    mkPoint l = .error (.shape "point needs exactly 3 components") ∨
      ∃ p, mkPoint l = .ok p := by
  match l with
  | [] => exact Or.inl rfl
  | [_] => exact Or.inl rfl
  | [_, _] => exact Or.inl rfl
  | [_, _, _] => exact Or.inr ⟨_, rfl⟩
  | _ :: _ :: _ :: _ :: _ => exact Or.inl rfl

/-- C7: with exactly 3 components in each input, position returns a DTO
whose point and rotation fields equal the inputs component-wise and whose
actions field is the given list; with a wrong component count in either
input it fails with ShapeError (the builder is pure, so before any network
call). -/
theorem C7_position_shape (point rot : List Rat) (acts : Option (List Nat)) :
    (∀ a b c d e f : Rat, point = [a, b, c] → rot = [d, e, f] →
      position point rot acts =
        .ok { point := { x := a, y := b, z := c },
              rotation := { roll := d, pitch := e, yaw := f },
              actions := acts }) ∧
    (point.length ≠ 3 ∨ rot.length ≠ 3 →
      ∃ msg, position point rot acts = .error (.shape msg)) := by
  constructor
  · intro a b c d e f hp hr
    subst hp hr
    rfl
  · intro h
    rcases h with h | h
    · exact ⟨"point needs exactly 3 components",
        by simp [position, mkPoint_length_ne point h]⟩
    · rcases mkPoint_shape_or_ok point with hp | ⟨p, hp⟩
      · exact ⟨"point needs exactly 3 components", by simp [position, hp]⟩
      · exact ⟨"rotation needs exactly 3 components",
          by simp [position, hp, mkRotation_length_ne rot h]⟩

/-- Witness for C7: the spec example point and rotation of 3 components
each round-trip component-wise; a 2-component point fails with
ShapeError. -/
theorem C7_position_shape_witness :
    position [3 / 10, 2 / 10, 1 / 10] [3, 0, 0] none =
      .ok { point := { x := 3 / 10, y := 2 / 10, z := 1 / 10 },
            rotation := { roll := 3, pitch := 0, yaw := 0 },
            actions := none } ∧
    (∃ msg, position [1, 2] [3, 0, 0] none = .error (.shape msg)) :=
  ⟨(C7_position_shape [3 / 10, 2 / 10, 1 / 10] [3, 0, 0] none).1
      (3 / 10) (2 / 10) (1 / 10) 3 0 0 rfl rfl,
   (C7_position_shape [1, 2] [3, 0, 0] none).2 (Or.inl (by decide))⟩
